import Mathlib

/-!
Verification of `download_and_organise_chess_assets.py`.

The script is a five-stage batch pipeline: directory creation, asset
fetching (pieces and sounds), theme-JSON writing, Qt resource-manifest
generation, and a final verification pass.  We embed it shallowly:

* the filesystem is a `State` (a partial map from path to file contents
  plus a set of directories);
* the network is a function `String → NetResult` giving, per URL, either
  a transport error or an HTTP response (status code and body);
* fallible filesystem primitives run in `Except PyErr`, with an `Oracle`
  deciding which writes / directory creations raise;
* Python's `requests.Response.raise_for_status` raises exactly for
  status codes in [400, 600), which is how `download_file` turns an
  HTTP error into a caught exception.

Catalogs, path templates and iteration orders are transcribed directly
from the source file.
-/

set_option maxRecDepth 8000

namespace ChessAssets

/-- `PIECE_SETS` table (source lines 9-13): local theme id → Lichess set id,
in insertion order. -/
def PIECE_SETS : List (String × String) :=
  [("classic", "cburnett"), ("modern", "alpha"), ("minimalist", "merida")]

/-- `SOUND_EFFECTS` table (source lines 15-24): output filename → URL,
in insertion order. -/
def SOUND_EFFECTS : List (String × String) :=
  [ ("move.wav", "https://freesound.org/people/mh2o/sounds/351518/download/351518__mh2o__chess-move-on-alabaster.wav")
  , ("capture.wav", "https://freesound.org/people/InspectorJ/sounds/416179/download/416179__inspectorj__dropping-wood-light-a.wav")
  , ("check.wav", "https://freesound.org/people/plasterbrain/sounds/237422/download/237422__plasterbrain__game-obstacle.wav")
  , ("checkmate.wav", "https://freesound.org/people/jobro/sounds/60444/download/60444__jobro__dramatic-piano-2.wav")
  , ("start.wav", "https://freesound.org/people/InspectorJ/sounds/411460/download/411460__inspectorj__dropping-wood-medium-a.wav")
  , ("draw_offer.wav", "https://freesound.org/people/InspectorJ/sounds/411168/download/411168__inspectorj__dropping-wood-light-b.wav")
  , ("timeout.wav", "https://freesound.org/people/InspectorJ/sounds/403014/download/403014__inspectorj__dropping-wood-heavy-a.wav")
  , ("resign.wav", "https://freesound.org/people/InspectorJ/sounds/411167/download/411167__inspectorj__dropping-wood-heavy-b.wav") ]

/-- The five board colors of a theme record ("board" sub-dict, in key order). -/
structure BoardColors where
  lightSquares : String
  darkSquares : String
  border : String
  highlightMove : String
  highlightCheck : String
deriving DecidableEq

/-- The "pieces" sub-dict of a theme record.  The scale factor is a
non-negative decimal number kept in decimal form (integer part and the
list of fraction digits), since Python serializes the floats `0.9` and
`0.85` as exactly these decimal literals and `json.load` reads them back
unchanged. -/
structure PiecesConfig where
  set : String
  scaleInt : Nat
  scaleFrac : List Nat
deriving DecidableEq

/-- One value of `THEME_DEFINITIONS`: display name, board colors, pieces
config, in the key order of the source dict. -/
structure ThemeRecord where
  name : String
  board : BoardColors
  pieces : PiecesConfig
deriving DecidableEq

/-- The `classic.json` record (source lines 27-40). -/
def classicTheme : ThemeRecord :=
  { name := "Classic"
  , board := { lightSquares := "#FFFFFF", darkSquares := "#769656", border := "#404040"
             , highlightMove := "#BACA2B", highlightCheck := "#FF0000" }
  , pieces := { set := "classic", scaleInt := 0, scaleFrac := [9] } }

/-- The `modern.json` record (source lines 41-54). -/
def modernTheme : ThemeRecord :=
  { name := "Modern"
  , board := { lightSquares := "#EEEED2", darkSquares := "#769656", border := "#404040"
             , highlightMove := "#829769", highlightCheck := "#C84147" }
  , pieces := { set := "modern", scaleInt := 0, scaleFrac := [8, 5] } }

/-- The `minimalist.json` record (source lines 55-68). -/
def minimalistTheme : ThemeRecord :=
  { name := "Minimalist"
  , board := { lightSquares := "#DEE3E6", darkSquares := "#8CA2AD", border := "#404040"
             , highlightMove := "#90A4AE", highlightCheck := "#F44336" }
  , pieces := { set := "minimalist", scaleInt := 0, scaleFrac := [9] } }

/-- `THEME_DEFINITIONS` table (source lines 26-69): output filename → record,
in insertion order. -/
def THEME_DEFINITIONS : List (String × ThemeRecord) :=
  [("classic.json", classicTheme), ("modern.json", modernTheme),
   ("minimalist.json", minimalistTheme)]

/-- `LICHESS_PIECE_URL` template (source line 72), instantiated with a set
name and a piece code as `str.format` does. -/
def LICHESS_PIECE_URL (setName piece : String) : String :=
  "https://raw.githubusercontent.com/lichess-org/lila/master/public/piece/"
    ++ setName ++ "/" ++ piece ++ ".svg"

/-- `piece_names` mapping (source lines 101-114): local filename stem →
Lichess piece code, in insertion order. -/
def piece_names : List (String × String) :=
  [ ("white_king", "wK"), ("white_queen", "wQ"), ("white_rook", "wR")
  , ("white_bishop", "wB"), ("white_knight", "wN"), ("white_pawn", "wP")
  , ("black_king", "bK"), ("black_queen", "bQ"), ("black_rook", "bR")
  , ("black_bishop", "bB"), ("black_knight", "bN"), ("black_pawn", "bP") ]

/-- The inline piece-type list `['king', 'queen', 'rook', 'bishop', 'knight',
'pawn']` that appears verbatim in both `create_resource_files` (line 159) and
`verify_downloads` (line 202). -/
def pieceTypes : List String := ["king", "queen", "rook", "bishop", "knight", "pawn"]

/-- The inline color list `['white', 'black']` of the same two loops. -/
def pieceColors : List String := ["white", "black"]

/-! ## Filesystem, network and error model -/

/-- Filesystem state: file contents per path, plus which directories exist. -/
@[ext]
structure State where
  files : String → Option String
  dirs : String → Bool

/-- The filesystem before any run: no files, no directories. -/
def emptyState : State := { files := fun _ => none, dirs := fun _ => false }

/-- Outcome of one HTTP GET: a transport-level failure, or a response
carrying a status code and a body. -/
inductive NetResult where
  | transportError : NetResult
  | response : Nat → String → NetResult

/-- A network is a map from URL to outcome; it is fixed for a whole run. -/
def Net : Type := String → NetResult

/-- Python exceptions the script can encounter: a transport error from
`requests`, an `HTTPError` from `raise_for_status`, or an `OSError` from a
filesystem primitive (tagged with the offending path). -/
inductive PyErr where
  | netError : PyErr
  | httpError : Nat → PyErr
  | fsError : String → PyErr
deriving DecidableEq

/-- Which filesystem primitives raise: `writeFails p` means opening `p` for
writing raises `OSError`; `mkdirFails p` means creating directory `p`
raises (other than `FileExistsError`, which `exist_ok=True` suppresses). -/
structure Oracle where
  writeFails : String → Bool
  mkdirFails : String → Bool

/-- The oracle of a run in which every filesystem primitive succeeds. -/
def okOracle : Oracle := { writeFails := fun _ => false, mkdirFails := fun _ => false }

/-- `open(path, 'wb')` + write: raises per the oracle, otherwise replaces the
file contents at `path` (creating or truncating, i.e. overwriting). -/
def writeFileOp (o : Oracle) (st : State) (path content : String) : Except PyErr State :=
  if o.writeFails path then .error (.fsError path)
  else .ok { st with files := fun q => if q = path then some content else st.files q }

/-- `Path.mkdir(..., exist_ok=True)`: an existing directory is left untouched
and raises nothing; otherwise the oracle may raise, else the directory is
added. -/
def mkdirOp (o : Oracle) (st : State) (path : String) : Except PyErr State :=
  if st.dirs path then .ok st
  else if o.mkdirFails path then .error (.fsError path)
  else .ok { st with dirs := fun q => if q = path then true else st.dirs q }

/-- `response.raise_for_status()` raises exactly for status codes in
[400, 600) (4xx client errors and 5xx server errors). -/
def raiseForStatus (s : Nat) : Except PyErr Unit :=
  if 400 ≤ s ∧ s < 600 then .error (.httpError s) else .ok ()

/-! ## Components -/

/-- Directories created by `create_directory_structure` (source lines 74-81),
in creation order.  `assets` itself comes first, created by `parents=True`
on the first `mkdir` call. -/
def dirsCreated : List String :=
  "assets" :: "assets/pieces" ::
    (PIECE_SETS.map (fun p => "assets/pieces/" ++ p.1)
      ++ ["assets/sounds", "assets/themes"])

/-- `create_directory_structure` (source lines 74-81). -/
def create_directory_structure (o : Oracle) (st : State) : Except PyErr State :=
  dirsCreated.foldlM (mkdirOp o) st

/-- `download_file` (source lines 83-94): the whole body sits in a
`try/except Exception` block, so the GET, the status check, the open and
the body copy can all raise, and every such exception is caught and turned
into a `False` return with the state as the failed attempt left it (for a
pre-write failure, unchanged). -/
def download_file (net : Net) (o : Oracle) (st : State) (url destination : String) :
    State × Bool :=
  let attempt : Except PyErr State := do
    let resp ← match net url with
      | .transportError => .error .netError
      | .response s b => .ok (s, b)
    let _ ← raiseForStatus resp.1
    writeFileOp o st destination resp.2
  match attempt with
  | .ok st1 => (st1, true)
  | .error _ => (st, false)

/-- The 36 piece fetches of `download_piece_sets` (source lines 116-127) as
(url, destination) pairs, in loop order: outer loop over `PIECE_SETS`, inner
loop over `piece_names`. -/
def pieceFetches : List (String × String) :=
  PIECE_SETS.flatMap (fun ts =>
    piece_names.map (fun pc =>
      (LICHESS_PIECE_URL ts.2 pc.2, "assets/pieces/" ++ ts.1 ++ "/" ++ pc.1 ++ ".svg")))

/-- The 8 sound fetches of `download_sounds` (source lines 129-136) as
(url, destination) pairs, in catalog order. -/
def soundFetches : List (String × String) :=
  SOUND_EFFECTS.map (fun p => (p.2, "assets/sounds/" ++ p.1))

/-- All 44 fetches the run attempts, in program order. -/
def allFetches : List (String × String) := pieceFetches ++ soundFetches

/-- `download_piece_sets` (source lines 96-127): attempts every fetch in
order; the boolean result of each `download_file` is only printed, never
used to stop the loop. -/
def download_piece_sets (net : Net) (o : Oracle) (st : State) : State :=
  pieceFetches.foldl (fun s ud => (download_file net o s ud.1 ud.2).1) st

/-- `download_sounds` (source lines 129-136): same shape over the sound
catalog, result of each fetch ignored. -/
def download_sounds (net : Net) (o : Oracle) (st : State) : State :=
  soundFetches.foldl (fun s ud => (download_file net o s ud.1 ud.2).1) st

/-! ## JSON values, serialization (as `json.dump(..., indent=4)`) and parsing -/

mutual
/-- JSON values as the script uses them: strings, non-negative decimal
numbers (integer part and fraction digits), and objects with ordered
fields. -/
inductive Json where
  | str : String → Json
  | num : Nat → List Nat → Json
  | obj : JFields → Json

/-- Ordered field list of a JSON object. -/
inductive JFields where
  | nil : JFields
  | cons : String → Json → JFields → JFields
end

/-- `n` spaces. -/
def spaces (n : Nat) : String := String.mk (List.replicate n ' ')

/-- Decimal digits as characters. -/
def digitsToString (l : List Nat) : String :=
  String.mk (l.map (fun d => Char.ofNat (d + 48)))

mutual
/-- Serialize as Python's `json.dump(value, f, indent=4)` does: objects open
with a brace and a newline, every field on its own line at the current
indent plus 4, `": "` between key and value, `",\n"` between fields, and the
closing brace at the current indent. -/
def serJson : Nat → Json → String
  | _, .str s => "\"" ++ s ++ "\""
  | _, .num i f =>
      toString i ++ (match f with | [] => "" | _ => "." ++ digitsToString f)
  | _, .obj .nil => "\x7b\x7d"
  | ind, .obj fs => "\x7b\n" ++ serFields (ind + 4) fs ++ "\n" ++ spaces ind ++ "\x7d"

/-- Serialize the fields of an object at the given indent. -/
def serFields : Nat → JFields → String
  | _, .nil => ""
  | ind, .cons k v .nil => spaces ind ++ "\"" ++ k ++ "\": " ++ serJson ind v
  | ind, .cons k v rest =>
      spaces ind ++ "\"" ++ k ++ "\": " ++ serJson ind v ++ ",\n" ++ serFields ind rest
end

/-- Drop JSON whitespace. -/
def skipWs : List Char → List Char
  | c :: cs => if c = ' ' ∨ c = '\n' then skipWs cs else c :: cs
  | [] => []

/-- Read a string body up to the closing quote (the generated files contain
no escapes). -/
def takeStr : List Char → Option (List Char × List Char)
  | [] => none
  | c :: cs =>
    if c = '"' then some ([], cs)
    else (takeStr cs).map (fun r => (c :: r.1, r.2))

/-- Is `c` a decimal digit? -/
def isDigitCh (c : Char) : Bool := 48 ≤ c.toNat && c.toNat ≤ 57

/-- Read a maximal digit run, as digit values. -/
def takeDigits : List Char → List Nat × List Char
  | c :: cs =>
    if isDigitCh c then
      let r := takeDigits (cs)
      ((c.toNat - 48) :: r.1, r.2)
    else ([], c :: cs)
  | [] => ([], [])

/-- Digit list to the number it denotes. -/
def digitsToNat (l : List Nat) : Nat := l.foldl (fun a d => a * 10 + d) 0

mutual
/-- Standard recursive-descent JSON parsing (fuelled), covering the value
forms the script emits: strings, decimal numbers, objects. -/
def parseJson : Nat → List Char → Option (Json × List Char)
  | 0, _ => none
  | fuel + 1, cs =>
    match skipWs cs with
    | '"' :: rest => (takeStr rest).map (fun r => (.str (String.mk r.1), r.2))
    | '\x7b' :: rest => parseFields fuel rest
    | rest =>
      match takeDigits rest with
      | ([], _) => none
      | (ds, rest1) =>
        match rest1 with
        | '.' :: rest2 =>
          (match takeDigits rest2 with
           | ([], _) => none
           | (fs, rest3) => some (.num (digitsToNat ds) fs, rest3))
        | _ => some (.num (digitsToNat ds) [], rest1)

/-- Parse the fields of an object, the opening brace already consumed;
returns the whole object. -/
def parseFields : Nat → List Char → Option (Json × List Char)
  | 0, _ => none
  | fuel + 1, cs =>
    match skipWs cs with
    | '\x7d' :: rest => some (.obj .nil, rest)
    | '"' :: rest =>
      match takeStr rest with
      | none => none
      | some (k, rest1) =>
        match skipWs rest1 with
        | ':' :: rest2 =>
          (match parseJson fuel rest2 with
           | none => none
           | some (v, rest3) =>
             match skipWs rest3 with
             | ',' :: rest4 =>
               (match parseFields fuel rest4 with
                | some (.obj fs, rest5) => some (.obj (.cons (String.mk k) v fs), rest5)
                | _ => none)
             | '\x7d' :: rest4 => some (.obj (.cons (String.mk k) v .nil), rest4)
             | _ => none)
        | _ => none
    | _ => none
end

/-- Parse a whole document: one JSON value and nothing but whitespace after. -/
def parseDoc (s : String) : Option Json :=
  match parseJson 10000 s.toList with
  | some (j, rest) => if skipWs rest = [] then some j else none
  | none => none

/-- A `ThemeRecord` as the JSON value `json.dump` receives, keys in the
source dict's insertion order. -/
def themeToJson (r : ThemeRecord) : Json :=
  .obj (.cons "name" (.str r.name)
    (.cons "board" (.obj
      (.cons "lightSquares" (.str r.board.lightSquares)
        (.cons "darkSquares" (.str r.board.darkSquares)
          (.cons "border" (.str r.board.border)
            (.cons "highlightMove" (.str r.board.highlightMove)
              (.cons "highlightCheck" (.str r.board.highlightCheck) .nil))))))
      (.cons "pieces" (.obj
        (.cons "set" (.str r.pieces.set)
          (.cons "scale" (.num r.pieces.scaleInt r.pieces.scaleFrac) .nil)))
        .nil)))

/-- Read a `ThemeRecord` back from a parsed JSON value. -/
def themeOfJson : Json → Option ThemeRecord
  | .obj (.cons "name" (.str n)
      (.cons "board" (.obj
        (.cons "lightSquares" (.str ls)
          (.cons "darkSquares" (.str ds)
            (.cons "border" (.str bd)
              (.cons "highlightMove" (.str hm)
                (.cons "highlightCheck" (.str hc) .nil))))))
        (.cons "pieces" (.obj
          (.cons "set" (.str ps)
            (.cons "scale" (.num i f) .nil)))
          .nil))) =>
    some { name := n
         , board := { lightSquares := ls, darkSquares := ds, border := bd
                    , highlightMove := hm, highlightCheck := hc }
         , pieces := { set := ps, scaleInt := i, scaleFrac := f } }
  | _ => none

/-- The exact text `json.dump(theme_data, f, indent=4)` writes for a record. -/
def serializeTheme (r : ThemeRecord) : String := serJson 0 (themeToJson r)

/-- `create_theme_files` (source lines 138-147): writes each record's JSON
to `assets/themes/<filename>`; a filesystem error is not caught here. -/
def create_theme_files (o : Oracle) (st : State) : Except PyErr State :=
  THEME_DEFINITIONS.foldlM
    (fun s p => writeFileOp o s ("assets/themes/" ++ p.1) (serializeTheme p.2)) st

/-! ## Manifest generation, verification, main -/

/-- The `<file>` paths of `pieces.qrc`, in the emission order of
`create_resource_files` (source lines 158-161): themes outermost, then the
inline piece-type list, then color. -/
def piecesQrcEntries : List String :=
  PIECE_SETS.flatMap (fun ts =>
    pieceTypes.flatMap (fun piece =>
      pieceColors.map (fun color =>
        "pieces/" ++ ts.1 ++ "/" ++ color ++ "_" ++ piece ++ ".svg")))

/-- The `<file>` paths of `sounds.qrc` (source lines 170-171), in sound
catalog order. -/
def soundsQrcEntries : List String :=
  SOUND_EFFECTS.map (fun p => "sounds/" ++ p.1)

/-- The `<file>` paths of `themes.qrc` (source lines 180-181), in theme
catalog order. -/
def themesQrcEntries : List String :=
  THEME_DEFINITIONS.map (fun p => "themes/" ++ p.1)

/-- Wrap entry paths in the fixed RCC header/footer used for all three
manifests (source lines 154-183). -/
def qrcText (prefixName : String) (entries : List String) : String :=
  "<!DOCTYPE RCC>\n<RCC version=\"1.0\">\n    <qresource prefix=\"/" ++ prefixName ++ "\">\n"
    ++ String.join (entries.map (fun p => "        <file>" ++ p ++ "</file>\n"))
    ++ "    </qresource>\n</RCC>"

/-- The full text of `pieces.qrc`. -/
def pieces_qrc : String := qrcText "pieces" piecesQrcEntries

/-- The full text of `sounds.qrc`. -/
def sounds_qrc : String := qrcText "sounds" soundsQrcEntries

/-- The full text of `themes.qrc`. -/
def themes_qrc : String := qrcText "themes" themesQrcEntries

/-- `create_resource_files` (source lines 149-193): builds the three
manifest texts (purely textually) and writes them; write errors are not
caught here. -/
def create_resource_files (o : Oracle) (st : State) : Except PyErr State := do
  let st1 ← writeFileOp o st "assets/pieces.qrc" pieces_qrc
  let st2 ← writeFileOp o st1 "assets/sounds.qrc" sounds_qrc
  writeFileOp o st2 "assets/themes.qrc" themes_qrc

/-- The piece paths `verify_downloads` checks (source lines 201-206), in its
loop order (theme, then the inline piece-type list, then color). -/
def expectedPiecePaths : List String :=
  PIECE_SETS.flatMap (fun ts =>
    pieceTypes.flatMap (fun piece =>
      pieceColors.map (fun color =>
        "assets/pieces/" ++ ts.1 ++ "/" ++ color ++ "_" ++ piece ++ ".svg")))

/-- The sound paths `verify_downloads` checks (source lines 209-212). -/
def expectedSoundPaths : List String :=
  SOUND_EFFECTS.map (fun p => "assets/sounds/" ++ p.1)

/-- The theme paths `verify_downloads` checks (source lines 215-218). -/
def expectedThemePaths : List String :=
  THEME_DEFINITIONS.map (fun p => "assets/themes/" ++ p.1)

/-- All 47 paths `verify_downloads` checks, in check order. -/
def expectedPaths : List String :=
  expectedPiecePaths ++ expectedSoundPaths ++ expectedThemePaths

/-- `verify_downloads` (source lines 195-225): recomputes the expected paths
and returns those with no file on disk; it only prints, never raises. -/
def verify_downloads (st : State) : List String :=
  expectedPaths.filter (fun p => (st.files p).isNone)

/-- `main` (source lines 227-247): the five stages in order.  The value is
the final filesystem state paired with the missing-files list the verifier
prints; a filesystem error escaping a stage aborts the run as `.error`. -/
def main (net : Net) (o : Oracle) (st : State) : Except PyErr (State × List String) := do
  let st1 ← create_directory_structure o st
  let st2 := download_piece_sets net o st1
  let st3 := download_sounds net o st2
  let st4 ← create_theme_files o st3
  let st5 ← create_resource_files o st4
  pure (st5, verify_downloads st5)

/-! ## The run as a sequence of primitive filesystem effects

Every stage of a run in which no filesystem primitive raises is a fold of
three primitive effects: write a file, create a directory, do nothing (a
failed fetch).  The contents written depend only on the catalogs and the
network, never on the filesystem, which is what the characterization and
idempotence lemmas below exploit. -/

/-- A primitive filesystem effect. -/
inductive Prim where
  | file : String → String → Prim
  | dir : String → Prim
  | noop : Prim

/-- Run one primitive effect. -/
def Prim.apply : Prim → State → State
  | .file p v, st => { st with files := fun q => if q = p then some v else st.files q }
  | .dir p, st => { st with dirs := fun q => if q = p then true else st.dirs q }
  | .noop, st => st

/-- Run a list of primitive effects left to right. -/
def applyPrims (l : List Prim) (st : State) : State :=
  l.foldl (fun s pr => pr.apply s) st

/-- The file contents a single primitive leaves at `q`, if it touches `q`. -/
def primFileWrite : Prim → String → Option String
  | .file p v, q => if q = p then some v else none
  | _, _ => none

/-- Whether a single primitive creates directory `q`. -/
def primMkDir : Prim → String → Bool
  | .dir p, q => decide (q = p)
  | _, _ => false

/-- Left-biased choice on optional file contents. -/
def oor : Option String → Option String → Option String
  | some v, _ => some v
  | none, b => b

/-- The contents the last effect touching `q` writes, if any. -/
def lastWrite : List Prim → String → Option String
  | [], _ => none
  | pr :: l, q => oor (lastWrite l q) (primFileWrite pr q)

/-- Whether some effect in the list creates directory `q`. -/
def anyDir : List Prim → String → Bool
  | [], _ => false
  | pr :: l, q => primMkDir pr q || anyDir l q

/-- The single effect a call of `download_file` has under `okOracle`. -/
def fetchPrim (net : Net) (url destination : String) : Prim :=
  match net url with
  | .transportError => .noop
  | .response s b => if 400 ≤ s ∧ s < 600 then .noop else .file destination b

/-- Whether the fetch of `url` returns `True`: a response arrives and
`raise_for_status` does not flag it. -/
def fetchSucceeds (net : Net) (url : String) : Bool :=
  match net url with
  | .transportError => false
  | .response s _ => !(decide (400 ≤ s ∧ s < 600))

/-- The body a fetch of `url` would write, when it succeeds. -/
def fetchBody (net : Net) (url : String) : Option String :=
  match net url with
  | .transportError => none
  | .response s b => if 400 ≤ s ∧ s < 600 then none else some b

/-- The effects of the 44 fetch attempts, in program order. -/
def fetchPrims (net : Net) : List Prim :=
  allFetches.map (fun ud => fetchPrim net ud.1 ud.2)

/-- The effects of `create_directory_structure`. -/
def dirPrims : List Prim := dirsCreated.map Prim.dir

/-- The effects of `create_theme_files`. -/
def themePrims : List Prim :=
  THEME_DEFINITIONS.map (fun p => Prim.file ("assets/themes/" ++ p.1) (serializeTheme p.2))

/-- The effects of `create_resource_files`. -/
def qrcPrims : List Prim :=
  [ .file "assets/pieces.qrc" pieces_qrc
  , .file "assets/sounds.qrc" sounds_qrc
  , .file "assets/themes.qrc" themes_qrc ]

/-- All effects of one run under `okOracle`, in program order. -/
def primsOf (net : Net) : List Prim :=
  dirPrims ++ (fetchPrims net ++ (themePrims ++ qrcPrims))

/-- The destination paths of the 44 fetches, in fetch order. -/
def fetchDestinations : List String := allFetches.map Prod.snd

/-- The paths the theme-writing stage writes, in write order. -/
def themeDestinations : List String :=
  THEME_DEFINITIONS.map (fun p => "assets/themes/" ++ p.1)

/-- Modelled from the spec claim's words, for comparison with
`piecesQrcEntries`: the pieces-manifest paths listed "in the insertion
order of the piece-name catalog within each theme". -/
def piecesQrcEntriesCatalogOrder : List String :=
  PIECE_SETS.flatMap (fun ts =>
    piece_names.map (fun pc => "pieces/" ++ ts.1 ++ "/" ++ pc.1 ++ ".svg"))

/-- Did the run complete without an uncaught exception? -/
def exceptOk : Except PyErr (State × List String) → Bool
  | .ok _ => true
  | .error _ => false

/-- The missing-files list a completed run prints (a run that aborted
printed none). -/
def missingOf : Except PyErr (State × List String) → List String
  | .ok r => r.2
  | .error _ => []

/-- Destinations of the fetches that failed, in fetch order. -/
def failedDests (net : Net) : List String :=
  (allFetches.filter (fun ud => !(fetchSucceeds net ud.1))).map Prod.snd

/-- An oracle under which exactly one path cannot be opened for writing. -/
def oracleFailingWrite (bad : String) : Oracle :=
  { writeFails := fun p => p == bad, mkdirFails := fun _ => false }

/-- An oracle under which exactly one directory cannot be created. -/
def oracleFailingMkdir (bad : String) : Oracle :=
  { writeFails := fun _ => false, mkdirFails := fun p => p == bad }

/-- A network on which every GET yields status 200 with a fixed body. -/
def netAll200 : Net := fun _ => .response 200 "svg-bytes"

/-- A network on which every GET yields status 304 (Not Modified), a
non-2xx status that `raise_for_status` does not flag. -/
def net304 : Net := fun _ => .response 304 "cached-body"

/-- A network on which every GET raises a transport error. -/
def netDown : Net := fun _ => .transportError

/-- A sample URL for concrete witnesses. -/
def urlX : String := "https://example.invalid/a.svg"

/-- A sample destination path for concrete witnesses. -/
def destX : String := "assets/pieces/classic/white_king.svg"

theorem applyPrims_cons (pr : Prim) (l : List Prim) (st : State) :
    applyPrims (pr :: l) st = applyPrims l (pr.apply st) := rfl

theorem applyPrims_append (a b : List Prim) (st : State) :
    applyPrims (a ++ b) st = applyPrims b (applyPrims a st) := by
  simp [applyPrims, List.foldl_append]

theorem oor_assoc (a b c : Option String) : oor (oor a b) c = oor a (oor b c) := by
  cases a <;> simp [oor]

theorem apply_files (pr : Prim) (st : State) (q : String) :
    (pr.apply st).files q = oor (primFileWrite pr q) (st.files q) := by
  cases pr with
  | file p v =>
    by_cases h : q = p <;> simp [Prim.apply, primFileWrite, h, oor]
  | dir p => simp [Prim.apply, primFileWrite, oor]
  | noop => simp [Prim.apply, primFileWrite, oor]

theorem apply_dirs (pr : Prim) (st : State) (q : String) :
    (pr.apply st).dirs q = (primMkDir pr q || st.dirs q) := by
  cases pr with
  | file p v => simp [Prim.apply, primMkDir]
  | dir p =>
    by_cases h : q = p <;> simp [Prim.apply, primMkDir, h]
  | noop => simp [Prim.apply, primMkDir]

theorem applyPrims_files (l : List Prim) :
    ∀ (st : State) (q : String),
      (applyPrims l st).files q = oor (lastWrite l q) (st.files q) := by
  induction l with
  | nil => intro st q; simp [applyPrims, lastWrite, oor]
  | cons pr l ih =>
    intro st q
    rw [applyPrims_cons, ih, apply_files, lastWrite, oor_assoc]

theorem applyPrims_dirs (l : List Prim) :
    ∀ (st : State) (q : String),
      (applyPrims l st).dirs q = (anyDir l q || st.dirs q) := by
  induction l with
  | nil => intro st q; simp [applyPrims, anyDir]
  | cons pr l ih =>
    intro st q
    rw [applyPrims_cons, ih, apply_dirs, anyDir]
    cases primMkDir pr q <;> cases anyDir l q <;> simp

/-- Replaying the same effect list is a no-op: every path ends at its last
write either way, and directory creation is monotone. -/
theorem applyPrims_idem (l : List Prim) (st : State) :
    applyPrims l (applyPrims l st) = applyPrims l st := by
  apply State.ext
  · funext q
    rw [applyPrims_files, applyPrims_files]
    cases lastWrite l q <;> simp [oor]
  · funext q
    rw [applyPrims_dirs, applyPrims_dirs]
    cases anyDir l q <;> simp

theorem mkdirOp_ok (o : Oracle) (st : State) (p : String)
    (h : o.mkdirFails p = false) :
    mkdirOp o st p = .ok ((Prim.dir p).apply st) := by
  have hset : st.dirs p = true →
      ((Prim.dir p).apply st) = st := by
    intro hdirs
    apply State.ext
    · rfl
    · funext q
      by_cases hq : q = p
      · subst hq; simp [Prim.apply, hdirs]
      · simp [Prim.apply, hq]
  unfold mkdirOp
  by_cases hd : st.dirs p
  · rw [if_pos hd, hset hd]
  · rw [if_neg hd, if_neg (by simp [h])]
    rfl

theorem writeFileOp_ok (o : Oracle) (st : State) (p c : String)
    (h : o.writeFails p = false) :
    writeFileOp o st p c = .ok ((Prim.file p c).apply st) := by
  simp [writeFileOp, h, Prim.apply]

theorem foldlM_mkdir_ok (o : Oracle) (h : ∀ p, o.mkdirFails p = false) :
    ∀ (l : List String) (st : State),
      l.foldlM (mkdirOp o) st = .ok (applyPrims (l.map Prim.dir) st) := by
  intro l
  induction l with
  | nil => intro st; rfl
  | cons a l ih =>
    intro st
    simp only [List.foldlM_cons, mkdirOp_ok o st a (h a), List.map_cons,
      applyPrims_cons]
    simpa using ih ((Prim.dir a).apply st)

theorem download_file_state (net : Net) (st : State) (url destination : String) :
    (download_file net okOracle st url destination).1
      = (fetchPrim net url destination).apply st := by
  unfold download_file fetchPrim raiseForStatus writeFileOp
  cases hn : net url with
  | transportError => simp [Bind.bind, Except.bind, okOracle, Prim.apply]
  | response s b =>
    by_cases hs : 400 ≤ s ∧ s < 600 <;>
      simp [Bind.bind, Except.bind, okOracle, hs, Prim.apply]

theorem foldl_download_eq (net : Net) :
    ∀ (l : List (String × String)) (st : State),
      l.foldl (fun s ud => (download_file net okOracle s ud.1 ud.2).1) st
        = applyPrims (l.map (fun ud => fetchPrim net ud.1 ud.2)) st := by
  intro l
  induction l with
  | nil => intro st; simp [applyPrims]
  | cons a l ih =>
    intro st
    simp only [List.foldl_cons, List.map_cons, applyPrims_cons]
    rw [download_file_state net st a.1 a.2]
    exact ih _

theorem foldlM_write_ok {α : Type} (o : Oracle) (path content : α → String)
    (h : ∀ a, o.writeFails (path a) = false) :
    ∀ (l : List α) (st : State),
      l.foldlM (fun s a => writeFileOp o s (path a) (content a)) st
        = .ok (applyPrims (l.map (fun a => Prim.file (path a) (content a))) st) := by
  intro l
  induction l with
  | nil => intro st; rfl
  | cons a l ih =>
    intro st
    simp only [List.foldlM_cons, writeFileOp_ok o st (path a) (content a) (h a),
      List.map_cons, applyPrims_cons]
    simpa using ih ((Prim.file (path a) (content a)).apply st)

theorem foldlM_write_ok_mem {α : Type} (o : Oracle) (path content : α → String) :
    ∀ (l : List α), (∀ a ∈ l, o.writeFails (path a) = false) →
      ∀ (st : State),
        l.foldlM (fun s a => writeFileOp o s (path a) (content a)) st
          = .ok (applyPrims (l.map (fun a => Prim.file (path a) (content a))) st) := by
  intro l
  induction l with
  | nil => intro h st; rfl
  | cons a l ih =>
    intro h st
    simp only [List.foldlM_cons,
      writeFileOp_ok o st (path a) (content a) (h a (List.mem_cons_self a l)),
      List.map_cons, applyPrims_cons]
    simpa using ih (fun x hx => h x (List.mem_cons_of_mem a hx))
      ((Prim.file (path a) (content a)).apply st)

theorem create_directory_structure_ok (o : Oracle) (h : ∀ p, o.mkdirFails p = false)
    (st : State) :
    create_directory_structure o st = .ok (applyPrims dirPrims st) :=
  foldlM_mkdir_ok o h dirsCreated st

theorem download_piece_sets_ok (net : Net) (st : State) :
    download_piece_sets net okOracle st
      = applyPrims (pieceFetches.map (fun ud => fetchPrim net ud.1 ud.2)) st :=
  foldl_download_eq net pieceFetches st

theorem download_sounds_ok (net : Net) (st : State) :
    download_sounds net okOracle st
      = applyPrims (soundFetches.map (fun ud => fetchPrim net ud.1 ud.2)) st :=
  foldl_download_eq net soundFetches st

theorem create_theme_files_ok (st : State) :
    create_theme_files okOracle st = .ok (applyPrims themePrims st) := by
  unfold create_theme_files themePrims
  exact foldlM_write_ok okOracle (fun p => "assets/themes/" ++ p.1)
    (fun p => serializeTheme p.2) (fun _ => rfl) THEME_DEFINITIONS st

theorem create_resource_files_ok (st : State) :
    create_resource_files okOracle st = .ok (applyPrims qrcPrims st) := rfl

/-- A run under `okOracle` never raises: it is exactly the effect sequence
`primsOf net` applied to the initial state, followed by the verification
pass over the resulting state. -/
theorem main_ok_eq (net : Net) (st : State) :
    main net okOracle st
      = .ok (applyPrims (primsOf net) st,
             verify_downloads (applyPrims (primsOf net) st)) := by
  unfold main
  rw [create_directory_structure_ok okOracle (fun _ => rfl)]
  simp only [Bind.bind, Except.bind, download_piece_sets_ok, download_sounds_ok,
    create_theme_files_ok, create_resource_files_ok, Pure.pure, Except.pure]
  simp only [primsOf, fetchPrims, allFetches, List.map_append, applyPrims_append]

theorem oor_none_right (a : Option String) : oor a none = a := by
  cases a <;> rfl

theorem oor_isSome_left (a b : Option String) (h : a.isSome = true) :
    (oor a b).isSome = true := by
  cases a <;> simp_all [oor]

theorem oor_isSome_right (a b : Option String) (h : b.isSome = true) :
    (oor a b).isSome = true := by
  cases a <;> simp_all [oor]

theorem oor_eq_none_iff (a b : Option String) :
    oor a b = none ↔ a = none ∧ b = none := by
  cases a <;> simp [oor]

theorem lastWrite_append (a b : List Prim) (q : String) :
    lastWrite (a ++ b) q = oor (lastWrite b q) (lastWrite a q) := by
  induction a with
  | nil => simp [lastWrite, oor_none_right]
  | cons pr a ih => simp [lastWrite, ih, oor_assoc]

theorem lastWrite_map_dir (l : List String) (q : String) :
    lastWrite (l.map Prim.dir) q = none := by
  induction l with
  | nil => rfl
  | cons a l ih => simp [lastWrite, ih, primFileWrite, oor]

/-- The file-level effect of the whole run at a path: the manifests win over
the themes, which win over the fetches; directory creation writes nothing. -/
theorem lastWrite_primsOf (net : Net) (q : String) :
    lastWrite (primsOf net) q
      = oor (oor (lastWrite qrcPrims q) (lastWrite themePrims q))
          (lastWrite (fetchPrims net) q) := by
  unfold primsOf dirPrims
  rw [lastWrite_append, lastWrite_append, lastWrite_append, lastWrite_map_dir,
    oor_none_right, oor_assoc]

theorem primFileWrite_fetchPrim (net : Net) (url destination q : String) :
    primFileWrite (fetchPrim net url destination) q
      = if q = destination then fetchBody net url else none := by
  unfold fetchPrim fetchBody
  cases net url with
  | transportError => simp [primFileWrite]
  | response s b =>
    by_cases hs : 400 ≤ s ∧ s < 600 <;> by_cases hq : q = destination <;>
      simp [primFileWrite, hs, hq]

theorem fetchBody_isSome (net : Net) (url : String) :
    (fetchBody net url).isSome = fetchSucceeds net url := by
  unfold fetchBody fetchSucceeds
  cases net url with
  | transportError => rfl
  | response s b => by_cases hs : 400 ≤ s ∧ s < 600 <;> simp [hs]

theorem lastWrite_fetch_isSome (net : Net) (l : List (String × String))
    (ud : String × String) (hm : ud ∈ l) (hs : fetchSucceeds net ud.1 = true) :
    (lastWrite (l.map (fun p => fetchPrim net p.1 p.2)) ud.2).isSome = true := by
  induction l with
  | nil => cases hm
  | cons a l ih =>
    rw [List.map_cons, lastWrite]
    rcases List.mem_cons.mp hm with h | h
    · subst h
      cases hlw : lastWrite (l.map (fun p => fetchPrim net p.1 p.2)) ud.2 with
      | some v => simp [oor]
      | none =>
        apply oor_isSome_right
        rw [primFileWrite_fetchPrim, if_pos rfl, fetchBody_isSome]
        exact hs
    · exact oor_isSome_left _ _ (ih h)

theorem lastWrite_fetch_none (net : Net) (q : String) (l : List (String × String))
    (h : ∀ ud ∈ l, ud.2 = q → fetchSucceeds net ud.1 = false) :
    lastWrite (l.map (fun p => fetchPrim net p.1 p.2)) q = none := by
  induction l with
  | nil => rfl
  | cons a l ih =>
    rw [List.map_cons, lastWrite,
      ih (fun ud hm hq => h ud (List.mem_cons_of_mem a hm) hq)]
    rw [primFileWrite_fetchPrim]
    by_cases hq : q = a.2
    · rw [if_pos hq]
      have hfail : fetchSucceeds net a.1 = false :=
        h a (List.mem_cons_self a l) hq.symm
      have : (fetchBody net a.1).isSome = false := by
        rw [fetchBody_isSome]; exact hfail
      cases hb : fetchBody net a.1 with
      | some v => rw [hb] at this; simp at this
      | none => rfl
    · rw [if_neg hq]
      rfl

/-! ## Claims -/

/-- C5: for each of the three `ThemeRecord`s, standard JSON parsing of the
generated `themes/<name>.json` text recovers exactly the record used to
generate it (display name, the five board colors, the piece-set reference
and the scale factor); and the serialized form uses the record's own key
ordering with 4-space indentation, as the explicit text for the classic
record shows. -/
theorem theme_json_round_trip :
    (THEME_DEFINITIONS.map (fun p => (parseDoc (serializeTheme p.2)).bind themeOfJson))
        = THEME_DEFINITIONS.map (fun p => some p.2)
      ∧ serializeTheme classicTheme
          = "\x7b\n    \"name\": \"Classic\",\n    \"board\": \x7b\n        \"lightSquares\": \"#FFFFFF\",\n        \"darkSquares\": \"#769656\",\n        \"border\": \"#404040\",\n        \"highlightMove\": \"#BACA2B\",\n        \"highlightCheck\": \"#FF0000\"\n    \x7d,\n    \"pieces\": \x7b\n        \"set\": \"classic\",\n        \"scale\": 0.9\n    \x7d\n\x7d" :=
  ⟨by decide, by decide⟩

/-- C2 counterexample: within each theme, `create_resource_files` iterates
its inline piece-type list with color innermost, so the second `pieces.qrc`
entry is `black_king`, where the piece-name catalog's insertion order
(all whites first) would put `white_queen`.  The claimed order is
therefore not the emitted one. -/
theorem pieces_qrc_not_catalog_order :
    piecesQrcEntries ≠ piecesQrcEntriesCatalogOrder
      ∧ piecesQrcEntries[1]? = some "pieces/classic/black_king.svg"
      ∧ piecesQrcEntriesCatalogOrder[1]? = some "pieces/classic/white_queen.svg" := by
  refine ⟨by decide, by decide, by decide⟩

/-- C2 amended: each manifest lists exactly the catalog-defined path set
with no duplicates; `sounds.qrc` and `themes.qrc` follow catalog insertion
order (their entries are the catalog maps themselves), and the 47 entries
are, up to the `assets/` prefix, exactly the paths the Verifier checks.
Within each theme, however, `pieces.qrc` entries follow the generator's
inline piece-type list with white before black per type (king, queen, rook,
bishop, knight, pawn), not the piece-name catalog's insertion order. -/
theorem qrc_entries_amended :
    piecesQrcEntries.Nodup ∧ soundsQrcEntries.Nodup ∧ themesQrcEntries.Nodup
      ∧ piecesQrcEntries.Perm piecesQrcEntriesCatalogOrder
      ∧ piecesQrcEntries.take 4
          = [ "pieces/classic/white_king.svg", "pieces/classic/black_king.svg"
            , "pieces/classic/white_queen.svg", "pieces/classic/black_queen.svg" ]
      ∧ soundsQrcEntries = SOUND_EFFECTS.map (fun p => "sounds/" ++ p.1)
      ∧ themesQrcEntries = THEME_DEFINITIONS.map (fun p => "themes/" ++ p.1)
      ∧ ((piecesQrcEntries ++ soundsQrcEntries ++ themesQrcEntries).map
            (fun p => "assets/" ++ p)).Perm expectedPaths := by
  refine ⟨by decide, by decide, by decide, by decide, by decide, rfl, rfl, by decide⟩

/-- C8: the classic/cburnett/white-king catalog entry produces the fetch
URL obtained from the piece URL template with set `cburnett` and piece
`wK` (it ends in `/piece/cburnett/wK.svg`), its body is written to
`assets/pieces/classic/white_king.svg`, and the path
`pieces/classic/white_king.svg` appears exactly once among the
`pieces.qrc` entries. -/
theorem example_scenario :
    LICHESS_PIECE_URL "cburnett" "wK"
        = "https://raw.githubusercontent.com/lichess-org/lila/master/public/piece/cburnett/wK.svg"
      ∧ (LICHESS_PIECE_URL "cburnett" "wK", "assets/pieces/classic/white_king.svg")
          ∈ pieceFetches
      ∧ List.count "pieces/classic/white_king.svg" piecesQrcEntries = 1 := by
  refine ⟨by decide, by decide, by decide⟩

/-- C10: every theme file `<stem>.json` carries `pieces.set = <stem>`, that
stem is a key of `PIECE_SETS`, the Directory Initializer creates
`assets/pieces/<stem>`, and the fetch stage writes into that directory
(e.g. its `white_king.svg`). -/
theorem themes_reference_created_sets :
    ∀ p ∈ THEME_DEFINITIONS,
      p.1 = p.2.pieces.set ++ ".json"
        ∧ p.2.pieces.set ∈ PIECE_SETS.map Prod.fst
        ∧ ("assets/pieces/" ++ p.2.pieces.set) ∈ dirsCreated
        ∧ ("assets/pieces/" ++ p.2.pieces.set ++ "/white_king.svg")
            ∈ pieceFetches.map Prod.snd := by
  decide

/-- C10 witness: the classic theme at a concrete input — its file stem
names its piece set, which is a `PIECE_SETS` key with a created and
populated directory. -/
theorem themes_reference_created_sets_witness :
    "classic.json" = classicTheme.pieces.set ++ ".json"
      ∧ classicTheme.pieces.set ∈ PIECE_SETS.map Prod.fst
      ∧ ("assets/pieces/" ++ classicTheme.pieces.set) ∈ dirsCreated
      ∧ ("assets/pieces/" ++ classicTheme.pieces.set ++ "/white_king.svg")
          ∈ pieceFetches.map Prod.snd :=
  themes_reference_created_sets ("classic.json", classicTheme) (by decide)

/-- C3 counterexample: on a 304 (Not Modified) response — a non-2xx status —
`raise_for_status` does not raise, so `download_file` writes the body and
returns `True` rather than the claimed `False`. -/
theorem non2xx_status_still_succeeds :
    (download_file net304 okOracle emptyState urlX destX).2 = true
      ∧ (download_file net304 okOracle emptyState urlX destX).1.files destX
          = some "cached-body"
      ∧ ¬(200 ≤ 304 ∧ 304 < 300) := by
  refine ⟨rfl, by decide, by decide⟩

/-- C3 amended: `download_file` returns `False` without raising on a
transport error or on a 4xx/5xx status (the statuses `raise_for_status`
flags), leaving the state unchanged; on any other status — 2xx, but also
e.g. 304 — it writes the full response body to the destination
(overwriting) and returns `True`. -/
theorem download_file_characterization (net : Net) (st : State)
    (url destination : String) :
    download_file net okOracle st url destination
      = match net url with
        | .transportError => (st, false)
        | .response s b =>
          if 400 ≤ s ∧ s < 600 then (st, false)
          else ({ st with files := fun q => if q = destination then some b else st.files q },
                true) := by
  unfold download_file raiseForStatus writeFileOp
  cases hn : net url with
  | transportError => simp [Bind.bind, Except.bind, okOracle]
  | response s b =>
    by_cases hs : 400 ≤ s ∧ s < 600 <;> simp [Bind.bind, Except.bind, okOracle, hs]

/-- C1: after a run in which every fetch succeeds, the Verifier's missing
list is empty (every catalog-derived path has a file), and the path list
the Verifier recomputes is — as a set — exactly the 47 destination paths
written by the fetch and theme-writing stages (36 piece + 8 sound + 3
theme files). -/
theorem all_success_verifies_clean (net : Net) (st : State)
    (h : allFetches.all (fun ud => fetchSucceeds net ud.1) = true) :
    (main net okOracle st).map (fun r => r.2) = .ok []
      ∧ expectedPaths.Perm (fetchDestinations ++ themeDestinations)
      ∧ expectedPaths.length = 47 := by
  refine ⟨?_, by decide, by decide⟩
  rw [main_ok_eq]
  have hempty : verify_downloads (applyPrims (primsOf net) st) = [] := by
    unfold verify_downloads
    rw [List.filter_eq_nil_iff]
    intro p hp
    have hcase : p ∈ fetchDestinations ∨ p ∈ themeDestinations :=
      (by decide : ∀ x ∈ expectedPaths,
        x ∈ fetchDestinations ∨ x ∈ themeDestinations) p hp
    have hsome : (lastWrite (primsOf net) p).isSome = true := by
      rw [lastWrite_primsOf]
      rcases hcase with hf | ht
      · obtain ⟨ud, hm, hud⟩ := List.mem_map.mp hf
        apply oor_isSome_right
        have hs := List.all_eq_true.mp h ud hm
        have hlw := lastWrite_fetch_isSome net allFetches ud hm hs
        unfold fetchPrims
        rw [← hud]
        exact hlw
      · apply oor_isSome_left
        apply oor_isSome_right
        exact (by decide : ∀ x ∈ themeDestinations,
          (lastWrite themePrims x).isSome = true) p ht
    rw [applyPrims_files]
    obtain ⟨v, hv⟩ := Option.isSome_iff_exists.mp hsome
    rw [hv]
    simp [oor]
  rw [hempty]
  rfl

/-- C1 witness: on a network answering every GET with status 200, a run
from the empty filesystem reports no missing file. -/
theorem all_success_witness :
    (main netAll200 okOracle emptyState).map (fun r => r.2) = .ok []
      ∧ expectedPaths.Perm (fetchDestinations ++ themeDestinations)
      ∧ expectedPaths.length = 47 :=
  all_success_verifies_clean netAll200 emptyState (by decide)

/-- C6: the pipeline is idempotent — re-running `main` on the state a
successful run left (same network, hence same fetch outcomes) completes
and returns exactly the same state and the same missing list: every write
is an overwrite at the same path with the same contents, and re-creating
an existing directory is a no-op. -/
theorem pipeline_idempotent (net : Net) (st : State) :
    (main net okOracle st).bind (fun r => main net okOracle r.1)
      = main net okOracle st := by
  rw [main_ok_eq]
  show main net okOracle (applyPrims (primsOf net) st) = _
  rw [main_ok_eq, applyPrims_idem]

/-- C9: a fetch that fails — transport error, or a status that
`raise_for_status` flags — raises before the destination is opened for
writing, so `download_file` returns `False` with the filesystem state
exactly as it was (no file created, truncated or modified), under any
oracle. -/
theorem failed_fetch_leaves_destination (net : Net) (o : Oracle) (st : State)
    (url destination : String) (h : fetchSucceeds net url = false) :
    download_file net o st url destination = (st, false) := by
  unfold download_file raiseForStatus
  cases hn : net url with
  | transportError => rfl
  | response s b =>
    have hs : 400 ≤ s ∧ s < 600 := by
      unfold fetchSucceeds at h
      rw [hn] at h
      simpa using h
    simp [Bind.bind, Except.bind, hs]

/-- C9 witness: a transport-error fetch into the empty filesystem leaves
it empty and returns `False`. -/
theorem failed_fetch_witness :
    download_file netDown okOracle emptyState urlX destX = (emptyState, false) :=
  failed_fetch_leaves_destination netDown okOracle emptyState urlX destX rfl

/-- C7: fetch failures are isolated.  Whatever subset of the 44 fetches
fails, the run still completes without raising (every fetch is attempted —
the loops never stop on a `False` return), and on a fresh filesystem the
Verifier's missing list contains exactly the destination paths of the
failed fetches. -/
theorem fetch_failure_isolation (net : Net) :
    exceptOk (main net okOracle emptyState) = true
      ∧ ∀ p, p ∈ missingOf (main net okOracle emptyState) ↔ p ∈ failedDests net := by
  constructor
  · rw [main_ok_eq]; rfl
  · intro p
    rw [main_ok_eq]
    show p ∈ verify_downloads (applyPrims (primsOf net) emptyState) ↔ _
    unfold verify_downloads
    rw [List.mem_filter]
    have hfiles : (applyPrims (primsOf net) emptyState).files p
        = lastWrite (primsOf net) p := by
      rw [applyPrims_files]
      exact oor_none_right _
    rw [hfiles]
    constructor
    · rintro ⟨hexp, hnone⟩
      have hnone2 : lastWrite (primsOf net) p = none :=
        Option.isNone_iff_eq_none.mp hnone
      rw [lastWrite_primsOf] at hnone2
      obtain ⟨hqt, hfetch⟩ := (oor_eq_none_iff _ _).mp hnone2
      obtain ⟨hqrc, htheme⟩ := (oor_eq_none_iff _ _).mp hqt
      rcases (by decide : ∀ x ∈ expectedPaths,
          x ∈ fetchDestinations ∨ x ∈ themeDestinations) p hexp with hf | ht
      · obtain ⟨ud, hm, hud⟩ := List.mem_map.mp hf
        cases hb : fetchSucceeds net ud.1 with
        | true =>
          exfalso
          have hlw := lastWrite_fetch_isSome net allFetches ud hm hb
          unfold fetchPrims at hfetch
          rw [← hud] at hfetch
          rw [hfetch] at hlw
          simp at hlw
        | false =>
          apply List.mem_map.mpr
          refine ⟨ud, List.mem_filter.mpr ⟨hm, ?_⟩, hud⟩
          rw [hb]
          rfl
      · exfalso
        have hth := (by decide : ∀ x ∈ themeDestinations,
          (lastWrite themePrims x).isSome = true) p ht
        rw [htheme] at hth
        simp at hth
    · intro hfd
      obtain ⟨ud, hmf, hud⟩ := List.mem_map.mp hfd
      obtain ⟨hm, hfailb⟩ := List.mem_filter.mp hmf
      have hfail : fetchSucceeds net ud.1 = false := by
        simpa using hfailb
      constructor
      · rw [← hud]
        exact (by decide : ∀ x ∈ allFetches, x.2 ∈ expectedPaths) ud hm
      · rw [lastWrite_primsOf]
        have hqt : lastWrite qrcPrims p = none ∧ lastWrite themePrims p = none := by
          rw [← hud]
          exact (by decide : ∀ x ∈ allFetches,
            lastWrite qrcPrims x.2 = none ∧ lastWrite themePrims x.2 = none) ud hm
        have hfetchnone : lastWrite (fetchPrims net) p = none := by
          unfold fetchPrims
          apply lastWrite_fetch_none
          intro ud2 hm2 hq2
          have heq : ud2 = ud :=
            List.inj_on_of_nodup_map
              (by decide : (allFetches.map Prod.snd).Nodup) hm2 hm
              (by rw [hq2, hud])
          rw [heq]
          exact hfail
        rw [hqt.1, hqt.2, hfetchnone]
        rfl

/-- C4 counterexample: the fetcher's `try/except Exception` also catches
filesystem errors from the write of a fetched response body.  With every
GET answering 200 but the piece destination unopenable for writing, the
run still completes successfully (no exception terminates it); the failed
write merely surfaces as a missing file in the Verifier's list. -/
theorem fetch_write_error_not_propagated :
    exceptOk (main netAll200 (oracleFailingWrite destX) emptyState) = true
      ∧ destX ∈ missingOf (main netAll200 (oracleFailingWrite destX) emptyState) := by
  refine ⟨by decide, by decide⟩

/-- C4 amended: filesystem errors during directory creation, theme-file
writes and manifest (`.qrc`) writes are uncaught and abort the run, but a
filesystem error during the write of a fetched response body happens
inside `download_file`'s blanket exception handler and is converted into
a `False` return instead of propagating. -/
theorem fs_error_propagation_amended :
    (∀ (net : Net) (o : Oracle) (st : State) (url destination : String)
        (s : Nat) (b : String),
        net url = .response s b → ¬(400 ≤ s ∧ s < 600) →
          o.writeFails destination = true →
            download_file net o st url destination = (st, false))
      ∧ (∀ (net : Net) (st : State),
          main net (oracleFailingWrite "assets/themes/classic.json") st
            = .error (.fsError "assets/themes/classic.json"))
      ∧ (∀ (net : Net) (st : State),
          main net (oracleFailingWrite "assets/pieces.qrc") st
            = .error (.fsError "assets/pieces.qrc"))
      ∧ (∀ net : Net,
          main net (oracleFailingMkdir "assets") emptyState
            = .error (.fsError "assets")) := by
  refine ⟨?_, ?_, ?_, ?_⟩
  · intro net o st url destination s b hn hs hw
    unfold download_file raiseForStatus writeFileOp
    rw [hn]
    simp [Bind.bind, Except.bind, hs, hw]
  · intro net st
    have herr : ∀ st2, create_theme_files (oracleFailingWrite "assets/themes/classic.json") st2
        = .error (.fsError "assets/themes/classic.json") := by
      intro st2
      have hw : (oracleFailingWrite "assets/themes/classic.json").writeFails
          "assets/themes/classic.json" = true := by decide
      unfold create_theme_files THEME_DEFINITIONS
      simp [List.foldlM, writeFileOp, hw, Bind.bind, Except.bind]
    unfold main
    rw [create_directory_structure_ok _ (fun _ => rfl)]
    simp only [Bind.bind, Except.bind]
    rw [herr]
  · intro net st
    have hctf : ∀ s : State,
        create_theme_files (oracleFailingWrite "assets/pieces.qrc") s
          = .ok (applyPrims themePrims s) := by
      intro s
      unfold create_theme_files themePrims
      exact foldlM_write_ok_mem (oracleFailingWrite "assets/pieces.qrc")
        (fun p => "assets/themes/" ++ p.1) (fun p => serializeTheme p.2)
        THEME_DEFINITIONS (by decide) s
    have hcrf : ∀ s : State,
        create_resource_files (oracleFailingWrite "assets/pieces.qrc") s
          = .error (.fsError "assets/pieces.qrc") := by
      intro s
      have hw : (oracleFailingWrite "assets/pieces.qrc").writeFails
          "assets/pieces.qrc" = true := by decide
      unfold create_resource_files
      simp [writeFileOp, hw, Bind.bind, Except.bind]
    unfold main
    rw [create_directory_structure_ok _ (fun _ => rfl)]
    simp only [Bind.bind, Except.bind, hctf, hcrf]
  · intro net
    unfold main create_directory_structure dirsCreated
    simp [List.foldlM, mkdirOp, emptyState, oracleFailingMkdir, Bind.bind, Except.bind]

/-- C4 witness: the four cases of the amended statement at concrete
inputs — a caught fetch-write error, an aborting theme-write error, an
aborting manifest-write error, and an aborting directory-creation error. -/
theorem fs_error_propagation_witness :
    download_file netAll200 (oracleFailingWrite destX) emptyState urlX destX
        = (emptyState, false)
      ∧ main netAll200 (oracleFailingWrite "assets/themes/classic.json") emptyState
          = .error (.fsError "assets/themes/classic.json")
      ∧ main netAll200 (oracleFailingWrite "assets/pieces.qrc") emptyState
          = .error (.fsError "assets/pieces.qrc")
      ∧ main netAll200 (oracleFailingMkdir "assets") emptyState
          = .error (.fsError "assets") :=
  ⟨fs_error_propagation_amended.1 netAll200 (oracleFailingWrite destX) emptyState
      urlX destX 200 "svg-bytes" rfl (by decide) (by decide),
   fs_error_propagation_amended.2.1 netAll200 emptyState,
   fs_error_propagation_amended.2.2.1 netAll200 emptyState,
   fs_error_propagation_amended.2.2.2 netAll200⟩

end ChessAssets
